import Mathlib

/-!
Verification of the PR merge-orchestration ("Merge Gate") logic of the
`nyaarium/scripts` repository.

The embedded functions are shallow translations of:
  * `getCIStatus` (check-run aggregation) from `src/tools/github/lib/checkGHCLI.js`
    (the `approvePr.js` library half of that file),
  * the merge decision and merge-method selection inside
    `githubApprovePr.handler` from `src/tools/github/tools/githubApprovePr.js`,
  * the per-PR approval step and batch loop of the same handler,
  * `attemptRebase` / `cursorMergePullRequest.handler` from
    `src/tools/cursorAgent/lib/mergeHelpers.js` and
    `src/tools/cursorAgent/tools/cursorGetAgentConversation.js`.

External collaborator calls (GitHub CLI invocations) are modelled as oracles:
`Except String α` values supplied in an environment record, so control flow
around success and thrown errors is preserved exactly.
-/

namespace MergeGate

/-- JS `haystack.includes(needle)`: contiguous-substring containment. -/
def strIncludes (s pat : String) : Bool := decide (pat.data <:+: s.data)

/-- Repository settings as produced by `getRepoSettings`. -/
structure RepositorySettings where
  allowAutoMerge : Bool
  linearHistory : Bool
  allowMergeCommit : Bool
  allowRebaseMerge : Bool
  allowSquashMerge : Bool
deriving Repr, DecidableEq

/-- One check-run as read from the GitHub `check-runs` payload.
`conclusion` and `html_url` may be `null` in the payload (`none`). -/
structure CheckRun where
  name : String
  status : String
  conclusion : Option String
  html_url : Option String
deriving Repr, DecidableEq

/-- The per-check record pushed into the CI status buckets
(`check.conclusion ?? ""`, `check.html_url ?? ""`). -/
structure CheckInfo where
  name : String
  status : String
  conclusion : String
  url : String
deriving Repr, DecidableEq

def toInfo (check : CheckRun) : CheckInfo :=
  { name := check.name
    status := check.status
    conclusion := check.conclusion.getD ""
    url := check.html_url.getD "" }

/-- Aggregate CI status (`getCIStatus` result shape). -/
structure CIStatus where
  overall : String
  required : List CheckInfo
  optional : List CheckInfo
  stillRunning : List CheckInfo
  errors : List CheckInfo
  canMerge : Bool
  message : String
deriving Repr, DecidableEq

/-- `Array.prototype.join(", ")` over the check names, as used in every
message that lists check names. -/
def joinNames : List CheckInfo → String
  | [] => ""
  | [c] => c.name
  | c :: rest => c.name ++ ", " ++ joinNames rest

/-- The loop body of `getCIStatus`: classify one check-run into a bucket. -/
def classifyStep (status : CIStatus) (check : CheckRun) : CIStatus :=
  let info := toInfo check
  if check.conclusion = some "failure" ∨ check.conclusion = some "cancelled" then
    { status with errors := status.errors ++ [info], canMerge := false }
  else if check.status = "in_progress" ∨ check.status = "queued" then
    { status with stillRunning := status.stillRunning ++ [info], canMerge := false }
  else if check.conclusion = some "success" then
    { status with required := status.required ++ [info] }
  else
    { status with optional := status.optional ++ [info] }

/-- The initial `status` object of `getCIStatus`. -/
def initialCIStatus : CIStatus :=
  { overall := "success", required := [], optional := [], stillRunning := []
    errors := [], canMerge := true, message := "" }

/-- The trailing if-chain of `getCIStatus` that derives `overall` and
`message` from the filled buckets. -/
def deriveOverall (status : CIStatus) : CIStatus :=
  if status.errors ≠ [] then
    { status with overall := "failure"
                  message := "CI checks failed: " ++ joinNames status.errors }
  else if status.stillRunning ≠ [] then
    { status with overall := "pending"
                  message := "CI checks still running: " ++ joinNames status.stillRunning }
  else if status.required ≠ [] then
    { status with overall := "success", message := "All CI checks passed" }
  else
    { status with overall := "no_checks", message := "No CI checks found" }

/-- `getCIStatus` restricted to its pure core: the aggregation of an already
fetched flat list of check-runs into a `CIStatus`. -/
def getCIStatus (checkRuns : List CheckRun) : CIStatus :=
  deriveOverall (checkRuns.foldl classifyStep initialCIStatus)

/-- JS optional chaining on a possibly-null `repoSettings`:
`repoSettings?.field` used in a boolean position. -/
def optTrue (repoSettings : Option RepositorySettings)
    (field : RepositorySettings → Bool) : Bool :=
  match repoSettings with
  | none => false
  | some s => field s

/-- The mutable decision triple (`canProceed`, `mergeStrategy`, `mergeMessage`)
as left by the policy block of `githubApprovePr.handler`. -/
structure MergeDecision where
  canProceed : Bool
  mergeStrategy : Option String
  mergeMessage : String
deriving Repr, DecidableEq

/-- The decision policy of `githubApprovePr.handler` (lines 74-106):
linear-history branch first, otherwise branch on `ciStatus.overall`. -/
def mergeDecision (repoSettings : Option RepositorySettings)
    (ciStatus : CIStatus) : MergeDecision :=
  if optTrue repoSettings (fun s => s.linearHistory) then
    if optTrue repoSettings (fun s => s.allowAutoMerge) then
      { canProceed := true, mergeStrategy := some "auto-merge"
        mergeMessage := "Linear history required - using auto-merge" }
    else
      { canProceed := false, mergeStrategy := none
        mergeMessage := "Linear history required but auto-merge disabled. Rebase required." }
  else
    if ciStatus.overall = "success" then
      { canProceed := true
        mergeStrategy := some (if optTrue repoSettings (fun s => s.allowAutoMerge)
          then "auto-merge" else "manual-merge")
        mergeMessage := "All checks passed - proceeding with merge" }
    else if ciStatus.overall = "pending" then
      if optTrue repoSettings (fun s => s.allowAutoMerge) then
        { canProceed := true, mergeStrategy := some "auto-merge"
          mergeMessage := "CI still running - auto-merge will complete after: " ++
            joinNames ciStatus.stillRunning }
      else
        { canProceed := false, mergeStrategy := none
          mergeMessage := "CI still running - manual merge blocked. Waiting for: " ++
            joinNames ciStatus.stillRunning }
    else if ciStatus.overall = "failure" then
      if ciStatus.required.length > 0 ∧ optTrue repoSettings (fun s => s.allowAutoMerge) then
        { canProceed := true, mergeStrategy := some "auto-merge"
          mergeMessage := "CI has failures but required checks exist - auto-merge will proceed. Errors: " ++
            joinNames ciStatus.errors }
      else
        { canProceed := false, mergeStrategy := none
          mergeMessage := "CI failed - merge blocked. Errors: " ++ joinNames ciStatus.errors }
    else
      { canProceed := true
        mergeStrategy := some (if optTrue repoSettings (fun s => s.allowAutoMerge)
          then "auto-merge" else "manual-merge")
        mergeMessage := "No CI checks found - proceeding with merge" }

/-- The strategy reported in `result.mergeResult.strategy`: the decided
strategy when `canProceed && mergeStrategy` holds, else `"blocked"`. -/
def decidedStrategy (repoSettings : Option RepositorySettings)
    (ciStatus : CIStatus) : String :=
  match (mergeDecision repoSettings ciStatus).canProceed,
        (mergeDecision repoSettings ciStatus).mergeStrategy with
  | true, some s => s
  | _, _ => "blocked"

/-- The concrete collaborator call made once a merge proceeds:
`enableAutoMerge` with a gh merge-method flag, or `manualMerge`. -/
inductive MergeAction where
  | enableAutoMerge (mode : String)
  | manualMerge
deriving Repr, DecidableEq

/-- Merge-method selection of `githubApprovePr.handler` (lines 109-121):
for `auto-merge`, pick `-m` / `-r` / `-s` by capability precedence,
falling back to a direct manual merge; any other strategy merges manually. -/
def executeMergeStrategy (repoSettings : Option RepositorySettings)
    (strategy : String) : MergeAction :=
  if strategy = "auto-merge" then
    if optTrue repoSettings (fun s => s.allowMergeCommit) then
      MergeAction.enableAutoMerge "m"
    else if optTrue repoSettings (fun s => s.allowRebaseMerge) then
      MergeAction.enableAutoMerge "r"
    else if optTrue repoSettings (fun s => s.allowSquashMerge) then
      MergeAction.enableAutoMerge "s"
    else
      MergeAction.manualMerge
  else
    MergeAction.manualMerge

/-- The merge action actually performed for a PR, if any: `none` when the
decision blocks (`canProceed && mergeStrategy` falsy). -/
def performedMergeAction (repoSettings : Option RepositorySettings)
    (ciStatus : CIStatus) : Option MergeAction :=
  match (mergeDecision repoSettings ciStatus).canProceed,
        (mergeDecision repoSettings ciStatus).mergeStrategy with
  | true, some s => some (executeMergeStrategy repoSettings s)
  | _, _ => none

/-- PR status as produced by `getPRStatus`. -/
structure PRStatus where
  mergeable : Option Bool
  mergeableState : String
  headSha : String
  baseRef : String
  headRef : String
deriving Repr, DecidableEq

/-- A per-PR result record pushed into `results`
(`approvePR` / already-approved shape, later mutated with `mergeResult`). -/
structure MergeResult where
  strategy : String
  message : String
  ciStatus : CIStatus
  prStatus : PRStatus
deriving Repr, DecidableEq

structure PRResult where
  success : Bool
  prNumber : String
  output : String
  skipped : Bool
  authWarning : Option String
  mergeResult : Option MergeResult
deriving Repr, DecidableEq

/-- An entry pushed into the batch `errors` array. The blocked-by-policy
entry also carries the CI and PR status snapshots. -/
structure ErrorEntry where
  prNumber : String
  error : String
  ciStatus : Option CIStatus
  prStatus : Option PRStatus
deriving Repr, DecidableEq

/-- The approval part of the per-PR loop body (handler lines 49-63):
a best-effort prior-approval check, then approval unless already approved.
`existing` is the outcome of `getExistingApproval` (`Except.error` = thrown),
`approve` the outcome of `approvePR` if it were called.
Returns the result record plus whether `approvePR` was actually invoked;
an `Except.error` models the exception reaching the outer per-PR catch. -/
def approvalStep (existing : Except String Bool) (approve : Except String Unit)
    (prNumber : String) : Except String (PRResult × Bool) :=
  let alreadyApproved : Bool :=
    match existing with
    | Except.ok b => b
    | Except.error _ => false
  let authWarning : Option String :=
    match existing with
    | Except.ok _ => none
    | Except.error msg =>
      if strIncludes msg "authenticated" || strIncludes msg "NOT_AUTHENTICATED" then
        some "GitHub CLI not authenticated - please run \x27gh auth login\x27"
      else none
  if alreadyApproved then
    Except.ok ({ success := true, prNumber := prNumber, output := "Already approved"
                 skipped := true, authWarning := authWarning, mergeResult := none }, false)
  else
    match approve with
    | Except.ok _ =>
      Except.ok ({ success := true, prNumber := prNumber, output := "Approved"
                   skipped := false, authWarning := authWarning, mergeResult := none }, true)
    | Except.error msg => Except.error msg

/-- Oracle outcomes of the collaborator calls one PR's processing can make. -/
structure PREnv where
  existing : Except String Bool
  approve : Except String Unit
  checkRuns : Except String (List CheckRun)
  prStatusR : Except String PRStatus
  mergeExec : Except String Unit
deriving Repr

/-- The whole per-PR loop body of `githubApprovePr.handler` (lines 47-148):
returns the `results` entry (if any) and the `errors` entries this PR
contributes. -/
def processPR (shouldMerge : Bool) (repoSettings : Option RepositorySettings)
    (prNumber : String) (env : PREnv) : Option PRResult × List ErrorEntry :=
  match approvalStep env.existing env.approve prNumber with
  | Except.error msg =>
    (none, [{ prNumber := prNumber, error := msg, ciStatus := none, prStatus := none }])
  | Except.ok (result, _called) =>
    if shouldMerge then
      match env.checkRuns with
      | Except.error msg =>
        (some result, [{ prNumber := prNumber, error := "Merge validation failed: " ++ msg
                         ciStatus := none, prStatus := none }])
      | Except.ok runs =>
        match env.prStatusR with
        | Except.error msg =>
          (some result, [{ prNumber := prNumber, error := "Merge validation failed: " ++ msg
                           ciStatus := none, prStatus := none }])
        | Except.ok prStatus =>
          let ciStatus := getCIStatus runs
          let d := mergeDecision repoSettings ciStatus
          match d.canProceed, d.mergeStrategy with
          | true, some strat =>
            match env.mergeExec with
            | Except.error msg =>
              (some result, [{ prNumber := prNumber
                               error := "Merge validation failed: " ++ msg
                               ciStatus := none, prStatus := none }])
            | Except.ok _ =>
              let mr : MergeResult :=
                { strategy := strat, message := d.mergeMessage
                  ciStatus := ciStatus, prStatus := prStatus }
              (some { result with mergeResult := some mr }, [])
          | _, _ =>
            let mr : MergeResult :=
              { strategy := "blocked", message := d.mergeMessage
                ciStatus := ciStatus, prStatus := prStatus }
            (some { result with mergeResult := some mr },
             [{ prNumber := prNumber, error := "Merge blocked: " ++ d.mergeMessage
                ciStatus := some ciStatus, prStatus := some prStatus }])
    else
      (some result, [])

/-- The sequential batch loop over `prNumbers`: each PR is processed with its
own oracle outcomes and contributes to `results` and `errors` in order. -/
def processBatch (shouldMerge : Bool) (repoSettings : Option RepositorySettings) :
    List (String × PREnv) → List PRResult × List ErrorEntry
  | [] => ([], [])
  | (prNumber, env) :: rest =>
    let step := processPR shouldMerge repoSettings prNumber env
    let batchRest := processBatch shouldMerge repoSettings rest
    (step.1.toList ++ batchRest.1, step.2 ++ batchRest.2)

end MergeGate

namespace CursorMerge

open MergeGate (strIncludes)

/-- PR details as produced by `collectPRStats` (the `exists: true` constant
field is omitted). -/
structure PRStats where
  state : String
  merged : Bool
  mergeable : Option Bool
  mergeableState : String
  headSha : String
  baseRef : String
  headRef : String
  title : String
  url : String
deriving Repr, DecidableEq

/-- Repository settings as produced by `checkRepositorySettings`. -/
structure RepoSettings where
  allowAutoMerge : Bool
  linearHistory : Bool
deriving Repr, DecidableEq

/-- Exit code and stderr of the `gh api .../update-branch` spawn. -/
structure SpawnOutcome where
  exitCode : Nat
  stderr : String
deriving Repr, DecidableEq

/-- Resolution values of `attemptRebase` in `mergeHelpers.js`. -/
inductive RebaseResult where
  | ok
  | failed (needsManualRebase : Bool) (error : String)
deriving Repr, DecidableEq

/-- `attemptRebase` (`mergeHelpers.js` lines 67-86) applied to the spawn
outcome: success on exit 0, otherwise a conflict-classified failure. -/
def attemptRebase (out : SpawnOutcome) : RebaseResult :=
  if out.exitCode = 0 then RebaseResult.ok
  else
    RebaseResult.failed
      (strIncludes out.stderr "conflict" || strIncludes out.stderr "merge conflict")
      out.stderr

/-- The collaborator operations `cursorMergePullRequest.handler` can invoke,
in invocation order. -/
inductive CursorOp where
  | getAgentStatus
  | checkGHCLI
  | collectPRStats
  | checkRepositorySettings
  | attemptRebase
  | mergePR (useAutoMerge : Bool)
deriving Repr, DecidableEq

/-- How the handler ends: a structured return value or a thrown error. -/
inductive HandlerOutcome where
  | returns (success : Bool) (message : String)
  | throws (msg : String)
deriving Repr, DecidableEq

/-- Oracle outcomes for one `cursorMergePullRequest.handler` invocation. -/
structure CursorEnv where
  prUrlPresent : Bool
  ghAvailable : Bool
  ghAuthenticated : Bool
  ghError : String
  prNumber : String
  prStatsR : Except String PRStats
  repoSettingsR : Except String RepoSettings
  rebaseSpawn : Except String SpawnOutcome
  mergeRun : Except String String
deriving Repr

/-- The conflict recommendation message template of the handler. -/
def conflictRecommendation (prStats : PRStats) : String :=
  "Cannot rebase to `" ++ prStats.baseRef ++
  "` due to conflicts. Recommended course of action is to use `cursorAddFollowUp` asking it to \"Resolve the conflicts of rebasing `" ++
  prStats.headRef ++ "` onto `" ++ prStats.baseRef ++
  "`. Confirm it\x27s in working order, then force push `" ++ prStats.headRef ++ "`.\""

/-- `cursorMergePullRequest.handler`: the outcome together with the ordered
trace of collaborator operations it invoked. -/
def cursorMergeHandler (env : CursorEnv) : HandlerOutcome × List CursorOp :=
  if env.prUrlPresent = false then
    (HandlerOutcome.returns false "No changes made, nothing to PR.",
     [CursorOp.getAgentStatus])
  else if env.ghAvailable = false then
    (HandlerOutcome.throws ("GitHub CLI not found: " ++ env.ghError),
     [CursorOp.getAgentStatus, CursorOp.checkGHCLI])
  else if env.ghAuthenticated = false then
    (HandlerOutcome.throws ("GitHub CLI not authenticated: " ++ env.ghError),
     [CursorOp.getAgentStatus, CursorOp.checkGHCLI])
  else
    match env.prStatsR with
    | Except.error msg =>
      (HandlerOutcome.throws msg,
       [CursorOp.getAgentStatus, CursorOp.checkGHCLI, CursorOp.collectPRStats])
    | Except.ok prStats =>
      if prStats.merged = true then
        (HandlerOutcome.returns false "This PR has already been merged.",
         [CursorOp.getAgentStatus, CursorOp.checkGHCLI, CursorOp.collectPRStats])
      else if prStats.state ≠ "open" then
        (HandlerOutcome.returns false "This PR has been canceled.",
         [CursorOp.getAgentStatus, CursorOp.checkGHCLI, CursorOp.collectPRStats])
      else
        match env.repoSettingsR with
        | Except.error msg =>
          (HandlerOutcome.throws msg,
           [CursorOp.getAgentStatus, CursorOp.checkGHCLI, CursorOp.collectPRStats,
            CursorOp.checkRepositorySettings])
        | Except.ok settings =>
          match env.rebaseSpawn with
          | Except.error msg =>
            (HandlerOutcome.throws msg,
             [CursorOp.getAgentStatus, CursorOp.checkGHCLI, CursorOp.collectPRStats,
              CursorOp.checkRepositorySettings, CursorOp.attemptRebase])
          | Except.ok out =>
            match attemptRebase out with
            | RebaseResult.failed needsManualRebase err =>
              if needsManualRebase then
                (HandlerOutcome.returns false (conflictRecommendation prStats),
                 [CursorOp.getAgentStatus, CursorOp.checkGHCLI, CursorOp.collectPRStats,
                  CursorOp.checkRepositorySettings, CursorOp.attemptRebase])
              else
                (HandlerOutcome.throws ("Rebase failed: " ++ err),
                 [CursorOp.getAgentStatus, CursorOp.checkGHCLI, CursorOp.collectPRStats,
                  CursorOp.checkRepositorySettings, CursorOp.attemptRebase])
            | RebaseResult.ok =>
              let useAutoMerge := settings.allowAutoMerge
              match env.mergeRun with
              | Except.error msg =>
                (HandlerOutcome.throws msg,
                 [CursorOp.getAgentStatus, CursorOp.checkGHCLI, CursorOp.collectPRStats,
                  CursorOp.checkRepositorySettings, CursorOp.attemptRebase,
                  CursorOp.mergePR useAutoMerge])
              | Except.ok _ =>
                (HandlerOutcome.returns true
                   ("Successfully " ++ (if useAutoMerge then "auto-merged" else "merged") ++
                    " PR #" ++ env.prNumber),
                 [CursorOp.getAgentStatus, CursorOp.checkGHCLI, CursorOp.collectPRStats,
                  CursorOp.checkRepositorySettings, CursorOp.attemptRebase,
                  CursorOp.mergePR useAutoMerge])

end CursorMerge

namespace MergeGate

/-! ### Basic lemmas about the embedded operations -/

lemma strIncludes_iff (s pat : String) :
    strIncludes s pat = true ↔ pat.data <:+: s.data := by
  simp [strIncludes]

lemma strIncludes_of_merge_conflict (s : String)
    (h : strIncludes s "merge conflict" = true) :
    strIncludes s "conflict" = true := by
  rw [strIncludes_iff] at h ⊢
  exact List.IsInfix.trans (by decide) h

lemma name_infix_joinNames {c : CheckInfo} :
    ∀ {l : List CheckInfo}, c ∈ l → c.name.data <:+: (joinNames l).data := by
  intro l
  induction l with
  | nil => intro h; cases h
  | cons d rest ih =>
    intro h
    cases rest with
    | nil =>
      rcases List.mem_singleton.mp h with rfl
      exact List.infix_refl _
    | cons e tail =>
      rcases List.mem_cons.mp h with rfl | h2
      · refine List.IsPrefix.isInfix ?_
        show c.name.data <+: (c.name ++ ", " ++ joinNames (e :: tail)).data
        simp only [String.data_append, List.append_assoc]
        exact List.prefix_append _ _
      · refine List.IsInfix.trans (ih h2) ?_
        show (joinNames (e :: tail)).data <:+: (d.name ++ ", " ++ joinNames (e :: tail)).data
        simp only [String.data_append]
        exact (List.suffix_append _ _).isInfix

/-- The spec's bucketing rule for `errors`:
`conclusion` in failure / cancelled. -/
def errP (c : CheckRun) : Bool :=
  decide (c.conclusion = some "failure" ∨ c.conclusion = some "cancelled")

/-- The spec's bucketing rule for `stillRunning`:
not an error and `status` in in_progress / queued. -/
def runningP (c : CheckRun) : Bool :=
  !errP c && decide (c.status = "in_progress" ∨ c.status = "queued")

/-- The spec's bucketing rule for `required`:
neither an error nor still-running, and `conclusion == success`. -/
def requiredP (c : CheckRun) : Bool :=
  !errP c && !(decide (c.status = "in_progress" ∨ c.status = "queued")) &&
    decide (c.conclusion = some "success")

/-- The spec's bucketing rule for `optional`: everything else. -/
def optionalP (c : CheckRun) : Bool :=
  !errP c && !(decide (c.status = "in_progress" ∨ c.status = "queued")) &&
    !(decide (c.conclusion = some "success"))

lemma foldl_classify (runs : List CheckRun) : ∀ st : CIStatus,
    (runs.foldl classifyStep st).errors = st.errors ++ (runs.filter errP).map toInfo ∧
    (runs.foldl classifyStep st).stillRunning
      = st.stillRunning ++ (runs.filter runningP).map toInfo ∧
    (runs.foldl classifyStep st).required = st.required ++ (runs.filter requiredP).map toInfo ∧
    (runs.foldl classifyStep st).optional = st.optional ++ (runs.filter optionalP).map toInfo ∧
    (runs.foldl classifyStep st).canMerge
      = (st.canMerge && runs.all fun c => !(errP c || runningP c)) := by
  induction runs with
  | nil => intro st; simp
  | cons c cs ih =>
    intro st
    simp only [List.foldl_cons, List.filter_cons, List.all_cons]
    by_cases h1 : c.conclusion = some "failure" ∨ c.conclusion = some "cancelled"
    · have he : errP c = true := decide_eq_true h1
      simp only [classifyStep, if_pos h1, he]
      obtain ⟨e1, e2, e3, e4, e5⟩ := ih { st with errors := st.errors ++ [toInfo c], canMerge := false }
      simp only [runningP, requiredP, optionalP, he] at *
      simp [e1, e2, e3, e4, e5, List.append_assoc]
    · have he : errP c = false := decide_eq_false h1
      by_cases h2 : c.status = "in_progress" ∨ c.status = "queued"
      · have hr : runningP c = true := by simp [runningP, he, decide_eq_true h2]
        simp only [classifyStep, if_neg h1, if_pos h2, he, hr]
        obtain ⟨e1, e2, e3, e4, e5⟩ :=
          ih { st with stillRunning := st.stillRunning ++ [toInfo c], canMerge := false }
        simp only [requiredP, optionalP, he, decide_eq_true h2] at *
        simp [e1, e2, e3, e4, e5, List.append_assoc]
      · have hr : runningP c = false := by simp [runningP, decide_eq_false h2]
        by_cases h3 : c.conclusion = some "success"
        · have hq : requiredP c = true := by
            simp [requiredP, he, decide_eq_false h2, decide_eq_true h3]
          simp only [classifyStep, if_neg h1, if_neg h2, if_pos h3, he, hr, hq]
          obtain ⟨e1, e2, e3, e4, e5⟩ := ih { st with required := st.required ++ [toInfo c] }
          simp only [optionalP, he, decide_eq_false h2, decide_eq_true h3] at *
          simp [e1, e2, e3, e4, e5, List.append_assoc]
        · have hq : requiredP c = false := by simp [requiredP, decide_eq_false h3]
          have ho : optionalP c = true := by
            simp [optionalP, he, decide_eq_false h2, decide_eq_false h3]
          simp only [classifyStep, if_neg h1, if_neg h2, if_neg h3, he, hr, hq, ho]
          obtain ⟨e1, e2, e3, e4, e5⟩ := ih { st with optional := st.optional ++ [toInfo c] }
          simp [e1, e2, e3, e4, e5, List.append_assoc]

lemma deriveOverall_fields (st : CIStatus) :
    (deriveOverall st).errors = st.errors ∧
    (deriveOverall st).stillRunning = st.stillRunning ∧
    (deriveOverall st).required = st.required ∧
    (deriveOverall st).optional = st.optional ∧
    (deriveOverall st).canMerge = st.canMerge := by
  unfold deriveOverall
  split
  · simp
  split
  · simp
  split <;> simp

lemma deriveOverall_overall (st : CIStatus) :
    (deriveOverall st).overall =
      if st.errors ≠ [] then "failure"
      else if st.stillRunning ≠ [] then "pending"
      else if st.required ≠ [] then "success"
      else "no_checks" := by
  unfold deriveOverall
  split
  · simp_all
  split
  · simp_all
  split <;> simp_all

lemma getCIStatus_buckets (runs : List CheckRun) :
    (getCIStatus runs).errors = (runs.filter errP).map toInfo ∧
    (getCIStatus runs).stillRunning = (runs.filter runningP).map toInfo ∧
    (getCIStatus runs).required = (runs.filter requiredP).map toInfo ∧
    (getCIStatus runs).optional = (runs.filter optionalP).map toInfo ∧
    (getCIStatus runs).canMerge = (runs.all fun c => !(errP c || runningP c)) := by
  obtain ⟨e1, e2, e3, e4, e5⟩ := foldl_classify runs initialCIStatus
  obtain ⟨d1, d2, d3, d4, d5⟩ := deriveOverall_fields (runs.foldl classifyStep initialCIStatus)
  unfold getCIStatus
  simp_all [initialCIStatus]

lemma getCIStatus_overall (runs : List CheckRun) :
    (getCIStatus runs).overall =
      if (getCIStatus runs).errors ≠ [] then "failure"
      else if (getCIStatus runs).stillRunning ≠ [] then "pending"
      else if (getCIStatus runs).required ≠ [] then "success"
      else "no_checks" := by
  obtain ⟨d1, d2, d3, _, _⟩ := deriveOverall_fields (runs.foldl classifyStep initialCIStatus)
  unfold getCIStatus
  rw [deriveOverall_overall, d1, d2, d3]

/-! ### Claim theorems over the CI aggregation -/

/-- C3: for every flat list of check-runs (including the empty list), the CI
aggregation buckets each run by the stated rules (conclusion
failure/cancelled → errors; else status in_progress/queued → stillRunning;
else conclusion success → required; else optional) and derives
`overall = "failure"` if errors is non-empty, else `"pending"` if
stillRunning is non-empty, else `"success"` if required is non-empty, else
`"no_checks"`; in particular the empty list yields `"no_checks"`. -/
theorem ci_aggregation_correct (runs : List CheckRun) :
    (getCIStatus runs).errors = (runs.filter errP).map toInfo ∧
    (getCIStatus runs).stillRunning = (runs.filter runningP).map toInfo ∧
    (getCIStatus runs).required = (runs.filter requiredP).map toInfo ∧
    (getCIStatus runs).optional = (runs.filter optionalP).map toInfo ∧
    ((getCIStatus runs).overall =
      if (getCIStatus runs).errors ≠ [] then "failure"
      else if (getCIStatus runs).stillRunning ≠ [] then "pending"
      else if (getCIStatus runs).required ≠ [] then "success"
      else "no_checks") ∧
    (getCIStatus ([] : List CheckRun)).overall = "no_checks" := by
  obtain ⟨e1, e2, e3, e4, _⟩ := getCIStatus_buckets runs
  exact ⟨e1, e2, e3, e4, getCIStatus_overall runs, rfl⟩

/-- C9: for every list of check-runs, `canMerge` is `true` exactly when both
the `errors` and `stillRunning` buckets are empty — equivalently, exactly
when `overall` is `"success"` or `"no_checks"`. -/
theorem canMerge_characterization (runs : List CheckRun) :
    ((getCIStatus runs).canMerge = true ↔
      ((getCIStatus runs).errors = [] ∧ (getCIStatus runs).stillRunning = [])) ∧
    ((getCIStatus runs).canMerge = true ↔
      ((getCIStatus runs).overall = "success" ∨
       (getCIStatus runs).overall = "no_checks")) := by
  obtain ⟨e1, e2, e3, e4, e5⟩ := getCIStatus_buckets runs
  have hov := getCIStatus_overall runs
  have hmain : (getCIStatus runs).canMerge = true ↔
      ((getCIStatus runs).errors = [] ∧ (getCIStatus runs).stillRunning = []) := by
    rw [e1, e2, e5]
    simp only [List.all_eq_true, List.map_eq_nil_iff, List.filter_eq_nil_iff,
      Bool.not_eq_true', Bool.or_eq_false_iff, Bool.not_eq_true]
    constructor
    · intro h
      exact ⟨fun c hc => (h c hc).1, fun c hc => (h c hc).2⟩
    · intro h c hc
      exact ⟨h.1 c hc, h.2 c hc⟩
  refine ⟨hmain, hmain.trans ?_⟩
  constructor
  · rintro ⟨herr, hrun⟩
    rw [hov, if_neg (by simp [herr]), if_neg (by simp [hrun])]
    by_cases hreq : (getCIStatus runs).required = []
    · rw [if_neg (by simp [hreq])]
      exact Or.inr rfl
    · rw [if_pos hreq]
      exact Or.inl rfl
  · intro h
    by_cases herr : (getCIStatus runs).errors = []
    · by_cases hrun : (getCIStatus runs).stillRunning = []
      · exact ⟨herr, hrun⟩
      · rw [hov, if_neg (by simp [herr]), if_pos hrun] at h
        rcases h with h | h <;> simp at h
    · rw [hov, if_pos herr] at h
      rcases h with h | h <;> simp at h

/-! ### Claim theorems over the merge decision -/

/-- C2: with `linearHistory = true` the decision ignores the CI status
entirely: it is auto-merge exactly when `allowAutoMerge` is set, and blocked
with the rebase-required message otherwise. -/
theorem linear_history_decision (rs : RepositorySettings) (ci : CIStatus)
    (hlin : rs.linearHistory = true) :
    (∀ ci' : CIStatus, mergeDecision (some rs) ci' = mergeDecision (some rs) ci) ∧
    (rs.allowAutoMerge = true → decidedStrategy (some rs) ci = "auto-merge") ∧
    (rs.allowAutoMerge = false →
      decidedStrategy (some rs) ci = "blocked" ∧
      (mergeDecision (some rs) ci).mergeMessage =
        "Linear history required but auto-merge disabled. Rebase required.") := by
  refine ⟨?_, ?_, ?_⟩
  · intro ci'
    simp [mergeDecision, optTrue, hlin]
  · intro ha
    simp [decidedStrategy, mergeDecision, optTrue, hlin, ha]
  · intro ha
    constructor <;> simp [decidedStrategy, mergeDecision, optTrue, hlin, ha]

/-- C1: with `linearHistory = false` and `overall = "failure"`, the decision
is auto-merge exactly when the `required` bucket is non-empty and
`allowAutoMerge` is set; otherwise it is blocked with a message listing the
failing check names. -/
theorem failure_decision (rs : RepositorySettings) (ci : CIStatus)
    (hlin : rs.linearHistory = false) (hov : ci.overall = "failure") :
    (decidedStrategy (some rs) ci = "auto-merge" ↔
      (ci.required ≠ [] ∧ rs.allowAutoMerge = true)) ∧
    ((ci.required = [] ∨ rs.allowAutoMerge = false) →
      decidedStrategy (some rs) ci = "blocked" ∧
      (mergeDecision (some rs) ci).mergeMessage =
        "CI failed - merge blocked. Errors: " ++ joinNames ci.errors) := by
  by_cases hc : ci.required.length > 0 ∧ rs.allowAutoMerge = true
  · have hd : decidedStrategy (some rs) ci = "auto-merge" := by
      simp [decidedStrategy, mergeDecision, optTrue, hlin, hov, hc]
    refine ⟨⟨fun _ => ⟨List.length_pos.mp hc.1, hc.2⟩, fun _ => hd⟩, ?_⟩
    rintro (hreq | hauto)
    · exact absurd hc.1 (by simp [hreq])
    · exact absurd hc.2 (by simp [hauto])
  · have hd : mergeDecision (some rs) ci =
        { canProceed := false, mergeStrategy := none
          mergeMessage := "CI failed - merge blocked. Errors: " ++ joinNames ci.errors } := by
      simp [mergeDecision, optTrue, hlin, hov, hc]
    have hs : decidedStrategy (some rs) ci = "blocked" := by
      simp [decidedStrategy, hd]
    refine ⟨⟨fun h => absurd (hs.symm.trans h) (by simp), fun h => ?_⟩,
      fun _ => ⟨hs, by rw [hd]⟩⟩
    exact absurd ⟨List.length_pos.mpr h.1, h.2⟩ hc

/-- C4: with `linearHistory = false` and `overall = "pending"`, the decision
is auto-merge when `allowAutoMerge` is set, with a message listing the
still-running check names; otherwise it is blocked and the message mentions
each still-running check name. -/
theorem pending_decision (rs : RepositorySettings) (ci : CIStatus)
    (hlin : rs.linearHistory = false) (hov : ci.overall = "pending") :
    (rs.allowAutoMerge = true →
      decidedStrategy (some rs) ci = "auto-merge" ∧
      (mergeDecision (some rs) ci).mergeMessage =
        "CI still running - auto-merge will complete after: " ++
          joinNames ci.stillRunning) ∧
    (rs.allowAutoMerge = false →
      decidedStrategy (some rs) ci = "blocked" ∧
      ∀ c ∈ ci.stillRunning,
        c.name.data <:+: (mergeDecision (some rs) ci).mergeMessage.data) := by
  constructor
  · intro ha
    constructor <;> simp [decidedStrategy, mergeDecision, optTrue, hlin, hov, ha]
  · intro ha
    have hd : mergeDecision (some rs) ci =
        { canProceed := false, mergeStrategy := none
          mergeMessage := "CI still running - manual merge blocked. Waiting for: " ++
            joinNames ci.stillRunning } := by
      simp [mergeDecision, optTrue, hlin, hov, ha]
    refine ⟨by simp [decidedStrategy, hd], ?_⟩
    intro c hc
    rw [hd]
    show c.name.data <:+:
      ("CI still running - manual merge blocked. Waiting for: " ++
        joinNames ci.stillRunning).data
    simp only [String.data_append]
    exact (name_infix_joinNames hc).trans (List.suffix_append _ _).isInfix

lemma decidedStrategy_auto (o : Option RepositorySettings) (ci : CIStatus)
    (h : decidedStrategy o ci = "auto-merge") :
    performedMergeAction o ci = some (executeMergeStrategy o "auto-merge") := by
  unfold decidedStrategy at h
  unfold performedMergeAction
  rcases hcp : (mergeDecision o ci).canProceed with _ | _ <;>
    rcases hms : (mergeDecision o ci).mergeStrategy with _ | s <;>
      simp_all

/-- C5: whenever the decision resolves to auto-merge, the executed merge
method follows the capability precedence merge-commit, then rebase, then
squash; with none of the three enabled, a direct manual merge is performed
instead. -/
theorem autoMerge_method_precedence (rs : RepositorySettings) (ci : CIStatus)
    (h : decidedStrategy (some rs) ci = "auto-merge") :
    (rs.allowMergeCommit = true →
      performedMergeAction (some rs) ci = some (MergeAction.enableAutoMerge "m")) ∧
    (rs.allowMergeCommit = false → rs.allowRebaseMerge = true →
      performedMergeAction (some rs) ci = some (MergeAction.enableAutoMerge "r")) ∧
    (rs.allowMergeCommit = false → rs.allowRebaseMerge = false →
      rs.allowSquashMerge = true →
      performedMergeAction (some rs) ci = some (MergeAction.enableAutoMerge "s")) ∧
    (rs.allowMergeCommit = false → rs.allowRebaseMerge = false →
      rs.allowSquashMerge = false →
      performedMergeAction (some rs) ci = some MergeAction.manualMerge) := by
  have hp := decidedStrategy_auto (some rs) ci h
  refine ⟨?_, ?_, ?_, ?_⟩
  · intro h1
    rw [hp]
    simp [executeMergeStrategy, optTrue, h1]
  · intro h1 h2
    rw [hp]
    simp [executeMergeStrategy, optTrue, h1, h2]
  · intro h1 h2 h3
    rw [hp]
    simp [executeMergeStrategy, optTrue, h1, h2, h3]
  · intro h1 h2 h3
    rw [hp]
    simp [executeMergeStrategy, optTrue, h1, h2, h3]

/-! ### Claim theorems over the approval step and the batch loop -/

/-- C7: approval is idempotent: when the prior-approval check reports
`true`, the step returns `skipped = true` and `success = true`, does not
invoke `approvePR` (the second component is `false`), and never raises a
duplicate-approval error — whatever the `approvePR` oracle would have done. -/
theorem approval_idempotent (prNumber : String) (approve : Except String Unit) :
    approvalStep (Except.ok true) approve prNumber =
      Except.ok ({ success := true, prNumber := prNumber, output := "Already approved"
                   skipped := true, authWarning := none, mergeResult := none }, false) := by
  rfl

lemma approvalStep_ok_prNumber (existing : Except String Bool)
    (approve : Except String Unit) (prNumber : String) (r : PRResult) (b : Bool)
    (h : approvalStep existing approve prNumber = Except.ok (r, b)) :
    r.prNumber = prNumber := by
  rcases existing with msg | ab <;> rcases approve with m2 | u
  · simp [approvalStep] at h
  · simp [approvalStep] at h
    obtain ⟨he, -⟩ := h
    cases he
    rfl
  · rcases ab with _ | _
    · simp [approvalStep] at h
    · simp [approvalStep] at h
      obtain ⟨he, -⟩ := h
      cases he
      rfl
  · rcases ab with _ | _ <;>
      · simp [approvalStep] at h
        obtain ⟨he, -⟩ := h
        cases he
        rfl

lemma processPR_entry (shouldMerge : Bool) (repoSettings : Option RepositorySettings)
    (prNumber : String) (env : PREnv) :
    (∀ r, (processPR shouldMerge repoSettings prNumber env).1 = some r →
      r.prNumber = prNumber) ∧
    (∀ e ∈ (processPR shouldMerge repoSettings prNumber env).2, e.prNumber = prNumber) ∧
    ((processPR shouldMerge repoSettings prNumber env).1 ≠ none ∨
     (processPR shouldMerge repoSettings prNumber env).2 ≠ []) := by
  unfold processPR
  rcases hstep : approvalStep env.existing env.approve prNumber with msg | ⟨r0, b0⟩
  · simp
  · have hpn : r0.prNumber = prNumber :=
      approvalStep_ok_prNumber env.existing env.approve prNumber r0 b0 hstep
    cases shouldMerge
    · simp [hpn]
    · rcases env.checkRuns with m | runs
      · simp [hpn]
      · rcases env.prStatusR with m2 | ps
        · simp [hpn]
        · rcases hcp : (mergeDecision repoSettings (getCIStatus runs)).canProceed with _ | _ <;>
            rcases hms : (mergeDecision repoSettings (getCIStatus runs)).mergeStrategy
              with _ | strat <;>
            rcases env.mergeExec with m3 | u <;>
            simp_all

/-- C8: a collaborator-call failure or policy block while processing one PR
is recorded as a per-PR entry in the batch `errors` array, and every PR of
the batch — in particular every one after a failing PR — contributes its own
entry to `results` or `errors` under its own PR number. -/
theorem batch_error_isolation (shouldMerge : Bool)
    (repoSettings : Option RepositorySettings) (batch : List (String × PREnv))
    (prNumber : String) (env : PREnv) (hmem : (prNumber, env) ∈ batch) :
    (∀ e ∈ (processPR shouldMerge repoSettings prNumber env).2,
      e ∈ (processBatch shouldMerge repoSettings batch).2) ∧
    ((∃ r ∈ (processBatch shouldMerge repoSettings batch).1, r.prNumber = prNumber) ∨
     (∃ e ∈ (processBatch shouldMerge repoSettings batch).2, e.prNumber = prNumber)) := by
  induction batch with
  | nil => cases hmem
  | cons hd tl ih =>
    rcases hd with ⟨pr0, env0⟩
    simp only [processBatch]
    rcases List.mem_cons.mp hmem with heq | htl
    · cases heq
      obtain ⟨hr, he, hne⟩ := processPR_entry shouldMerge repoSettings prNumber env
      constructor
      · intro e hee
        exact List.mem_append_left _ hee
      · rcases hne with h1 | h2
        · rcases ho : (processPR shouldMerge repoSettings prNumber env).1 with _ | r
          · exact absurd ho h1
          · exact Or.inl ⟨r, by simp [ho], hr r ho⟩
        · obtain ⟨e, hee⟩ := List.exists_mem_of_ne_nil _ h2
          exact Or.inr ⟨e, List.mem_append_left _ hee, he e hee⟩
    · obtain ⟨ih1, ih2⟩ := ih htl
      constructor
      · intro e hee
        exact List.mem_append_right _ (ih1 e hee)
      · rcases ih2 with ⟨r, hr1, hr2⟩ | ⟨e, he1, he2⟩
        · exact Or.inl ⟨r, List.mem_append_right _ hr1, hr2⟩
        · exact Or.inr ⟨e, List.mem_append_right _ he1, he2⟩

end MergeGate

namespace CursorMerge

open MergeGate (strIncludes strIncludes_of_merge_conflict)

/-! ### Lemmas about the cursor-agent merge handler -/

lemma mergePR_mem_rebase_ok (env : CursorEnv) (b : Bool)
    (h : CursorOp.mergePR b ∈ (cursorMergeHandler env).2) :
    ∃ o, env.rebaseSpawn = Except.ok o ∧ o.exitCode = 0 := by
  by_cases h1 : env.prUrlPresent = false
  · simp [cursorMergeHandler, h1] at h
  by_cases h2 : env.ghAvailable = false
  · simp [cursorMergeHandler, h1, h2] at h
  by_cases h3 : env.ghAuthenticated = false
  · simp [cursorMergeHandler, h1, h2, h3] at h
  rcases hst : env.prStatsR with msg | st
  · simp [cursorMergeHandler, h1, h2, h3, hst] at h
  by_cases h4 : st.merged = true
  · simp [cursorMergeHandler, h1, h2, h3, hst, h4] at h
  by_cases h5 : st.state = "open"
  case neg => simp [cursorMergeHandler, h1, h2, h3, hst, h4, h5] at h
  rcases hrs : env.repoSettingsR with msg | settings
  · simp [cursorMergeHandler, h1, h2, h3, hst, h4, h5, hrs] at h
  rcases hreb : env.rebaseSpawn with msg | out
  · simp [cursorMergeHandler, h1, h2, h3, hst, h4, h5, hrs, hreb] at h
  by_cases h6 : out.exitCode = 0
  · exact ⟨out, rfl, h6⟩
  · rcases hb : (strIncludes out.stderr "conflict" || strIncludes out.stderr "merge conflict")
        with _ | _ <;>
      simp [cursorMergeHandler, attemptRebase, h1, h2, h3, hst, h4, h5, hrs, hreb, h6, hb] at h

lemma handler_rebase_failed (env : CursorEnv) (st : PRStats)
    (settings : RepoSettings) (out : SpawnOutcome)
    (h1 : env.prUrlPresent = true) (h2 : env.ghAvailable = true)
    (h3 : env.ghAuthenticated = true) (h4 : env.prStatsR = Except.ok st)
    (h5 : st.merged = false) (h6 : st.state = "open")
    (h7 : env.repoSettingsR = Except.ok settings)
    (h8 : env.rebaseSpawn = Except.ok out) (h9 : out.exitCode ≠ 0) :
    cursorMergeHandler env =
      ((if strIncludes out.stderr "conflict" || strIncludes out.stderr "merge conflict" then
          HandlerOutcome.returns false (conflictRecommendation st)
        else
          HandlerOutcome.throws ("Rebase failed: " ++ out.stderr)),
       [CursorOp.getAgentStatus, CursorOp.checkGHCLI, CursorOp.collectPRStats,
        CursorOp.checkRepositorySettings, CursorOp.attemptRebase]) := by
  by_cases hb :
      (strIncludes out.stderr "conflict" || strIncludes out.stderr "merge conflict") = true <;>
    simp [cursorMergeHandler, attemptRebase, h1, h2, h3, h4, h5, h6, h7, h8, h9, hb]

lemma handler_closed_pr (env : CursorEnv) (st : PRStats)
    (h1 : env.prUrlPresent = true) (h2 : env.ghAvailable = true)
    (h3 : env.ghAuthenticated = true) (h4 : env.prStatsR = Except.ok st)
    (h5 : st.merged = true ∨ st.state ≠ "open") :
    cursorMergeHandler env =
      ((if st.merged = true then
          HandlerOutcome.returns false "This PR has already been merged."
        else
          HandlerOutcome.returns false "This PR has been canceled."),
       [CursorOp.getAgentStatus, CursorOp.checkGHCLI, CursorOp.collectPRStats]) := by
  by_cases hm : st.merged = true
  · simp [cursorMergeHandler, h1, h2, h3, h4, hm]
  · have hs : st.state ≠ "open" := h5.resolve_left hm
    simp [cursorMergeHandler, h1, h2, h3, h4, hm, hs]

/-! ### Claim theorems over the cursor-agent merge handler -/

/-- C6: when the branch-update (rebase) attempt fails, a stderr containing
"conflict" makes the tool return `success = false` with the structured
follow-up-and-resolve recommendation, any other failure makes it abort with
the raw error, and in neither case is the merge step invoked; moreover,
for every invocation whatsoever, the merge step runs only after a rebase
attempt that exited successfully. -/
theorem rebase_gates_merge (env : CursorEnv) (st : PRStats)
    (settings : RepoSettings) (out : SpawnOutcome)
    (h1 : env.prUrlPresent = true) (h2 : env.ghAvailable = true)
    (h3 : env.ghAuthenticated = true) (h4 : env.prStatsR = Except.ok st)
    (h5 : st.merged = false) (h6 : st.state = "open")
    (h7 : env.repoSettingsR = Except.ok settings)
    (h8 : env.rebaseSpawn = Except.ok out) (h9 : out.exitCode ≠ 0) :
    (∀ b : Bool, CursorOp.mergePR b ∉ (cursorMergeHandler env).2) ∧
    (strIncludes out.stderr "conflict" = true →
      (cursorMergeHandler env).1 =
        HandlerOutcome.returns false (conflictRecommendation st)) ∧
    (strIncludes out.stderr "conflict" = false →
      (cursorMergeHandler env).1 =
        HandlerOutcome.throws ("Rebase failed: " ++ out.stderr)) ∧
    (∀ (env' : CursorEnv) (b : Bool),
      CursorOp.mergePR b ∈ (cursorMergeHandler env').2 →
      ∃ o, env'.rebaseSpawn = Except.ok o ∧ o.exitCode = 0) := by
  have hc := handler_rebase_failed env st settings out h1 h2 h3 h4 h5 h6 h7 h8 h9
  refine ⟨?_, ?_, ?_, fun env' b h => mergePR_mem_rebase_ok env' b h⟩
  · intro b
    rw [hc]
    simp
  · intro hcf
    rw [hc]
    simp [hcf]
  · intro hcf
    have hmc : strIncludes out.stderr "merge conflict" = false := by
      rcases hmcv : strIncludes out.stderr "merge conflict" with _ | _
      · rfl
      · exact absurd (strIncludes_of_merge_conflict _ hmcv) (by simp [hcf])
    rw [hc]
    simp [hcf, hmc]

/-- C10: when the fetched PR stats show `merged = true` or a non-open state,
the handler returns `success = false` with the corresponding message and its
collaborator trace stops at `collectPRStats`: no repository-settings fetch,
no rebase attempt and no merge call is performed. -/
theorem closed_pr_no_mutation (env : CursorEnv) (st : PRStats)
    (h1 : env.prUrlPresent = true) (h2 : env.ghAvailable = true)
    (h3 : env.ghAuthenticated = true) (h4 : env.prStatsR = Except.ok st)
    (h5 : st.merged = true ∨ st.state ≠ "open") :
    (cursorMergeHandler env).2 =
      [CursorOp.getAgentStatus, CursorOp.checkGHCLI, CursorOp.collectPRStats] ∧
    CursorOp.checkRepositorySettings ∉ (cursorMergeHandler env).2 ∧
    CursorOp.attemptRebase ∉ (cursorMergeHandler env).2 ∧
    (∀ b : Bool, CursorOp.mergePR b ∉ (cursorMergeHandler env).2) ∧
    (st.merged = true →
      (cursorMergeHandler env).1 =
        HandlerOutcome.returns false "This PR has already been merged.") ∧
    (st.merged = false → st.state ≠ "open" →
      (cursorMergeHandler env).1 =
        HandlerOutcome.returns false "This PR has been canceled.") := by
  have hc := handler_closed_pr env st h1 h2 h3 h4 h5
  refine ⟨by rw [hc], by rw [hc]; simp, by rw [hc]; simp, fun b => by rw [hc]; simp,
    fun hm => ?_, fun hm hs => ?_⟩
  · rw [hc]
    simp [hm]
  · rw [hc]
    simp [hm]

end CursorMerge

namespace MergeGate

/-! ### Concrete sample inputs and witnesses -/

/-- Sample settings: auto-merge allowed, no linear history, only rebase
capability. -/
def rsSampleAuto : RepositorySettings :=
  { allowAutoMerge := true, linearHistory := false
    allowMergeCommit := false, allowRebaseMerge := true, allowSquashMerge := false }

/-- Sample settings: auto-merge disabled, no linear history. -/
def rsSampleNoAuto : RepositorySettings :=
  { allowAutoMerge := false, linearHistory := false
    allowMergeCommit := true, allowRebaseMerge := false, allowSquashMerge := false }

/-- Sample settings: linear history required, auto-merge disabled. -/
def rsSampleLinear : RepositorySettings :=
  { allowAutoMerge := false, linearHistory := true
    allowMergeCommit := false, allowRebaseMerge := false, allowSquashMerge := false }

/-- Sample CI status: one failed check, no passed required checks. -/
def ciSampleFailure : CIStatus :=
  { overall := "failure", required := [], optional := [], stillRunning := []
    errors := [{ name := "lint", status := "completed", conclusion := "failure", url := "" }]
    canMerge := false, message := "" }

/-- Sample CI status: one still-running `build` check. -/
def ciSamplePending : CIStatus :=
  { overall := "pending", required := [], optional := []
    stillRunning := [{ name := "build", status := "in_progress", conclusion := "", url := "" }]
    errors := [], canMerge := false, message := "" }

/-- Sample CI status: one passed check. -/
def ciSampleSuccess : CIStatus :=
  { overall := "success"
    required := [{ name := "build", status := "completed", conclusion := "success", url := "" }]
    optional := [], stillRunning := [], errors := [], canMerge := true, message := "" }

/-- Witness for C1 at a repository without auto-merge and a CI failure with
no passed required checks. -/
theorem failure_decision_witness :
    (decidedStrategy (some rsSampleNoAuto) ciSampleFailure = "auto-merge" ↔
      (ciSampleFailure.required ≠ [] ∧ rsSampleNoAuto.allowAutoMerge = true)) ∧
    ((ciSampleFailure.required = [] ∨ rsSampleNoAuto.allowAutoMerge = false) →
      decidedStrategy (some rsSampleNoAuto) ciSampleFailure = "blocked" ∧
      (mergeDecision (some rsSampleNoAuto) ciSampleFailure).mergeMessage =
        "CI failed - merge blocked. Errors: " ++ joinNames ciSampleFailure.errors) :=
  failure_decision rsSampleNoAuto ciSampleFailure rfl rfl

/-- Witness for C2 at a linear-history repository with auto-merge disabled. -/
theorem linear_history_decision_witness :
    (∀ ci' : CIStatus,
      mergeDecision (some rsSampleLinear) ci' = mergeDecision (some rsSampleLinear) ciSampleSuccess) ∧
    (rsSampleLinear.allowAutoMerge = true →
      decidedStrategy (some rsSampleLinear) ciSampleSuccess = "auto-merge") ∧
    (rsSampleLinear.allowAutoMerge = false →
      decidedStrategy (some rsSampleLinear) ciSampleSuccess = "blocked" ∧
      (mergeDecision (some rsSampleLinear) ciSampleSuccess).mergeMessage =
        "Linear history required but auto-merge disabled. Rebase required.") :=
  linear_history_decision rsSampleLinear ciSampleSuccess rfl

/-- Witness for C4 at a repository without auto-merge and a pending `build`
check. -/
theorem pending_decision_witness :
    (rsSampleNoAuto.allowAutoMerge = true →
      decidedStrategy (some rsSampleNoAuto) ciSamplePending = "auto-merge" ∧
      (mergeDecision (some rsSampleNoAuto) ciSamplePending).mergeMessage =
        "CI still running - auto-merge will complete after: " ++
          joinNames ciSamplePending.stillRunning) ∧
    (rsSampleNoAuto.allowAutoMerge = false →
      decidedStrategy (some rsSampleNoAuto) ciSamplePending = "blocked" ∧
      ∀ c ∈ ciSamplePending.stillRunning,
        c.name.data <:+: (mergeDecision (some rsSampleNoAuto) ciSamplePending).mergeMessage.data) :=
  pending_decision rsSampleNoAuto ciSamplePending rfl rfl

/-- Witness for C5 at an auto-merging repository whose only capability is
rebase. -/
theorem autoMerge_method_precedence_witness :
    (rsSampleAuto.allowMergeCommit = true →
      performedMergeAction (some rsSampleAuto) ciSampleSuccess =
        some (MergeAction.enableAutoMerge "m")) ∧
    (rsSampleAuto.allowMergeCommit = false → rsSampleAuto.allowRebaseMerge = true →
      performedMergeAction (some rsSampleAuto) ciSampleSuccess =
        some (MergeAction.enableAutoMerge "r")) ∧
    (rsSampleAuto.allowMergeCommit = false → rsSampleAuto.allowRebaseMerge = false →
      rsSampleAuto.allowSquashMerge = true →
      performedMergeAction (some rsSampleAuto) ciSampleSuccess =
        some (MergeAction.enableAutoMerge "s")) ∧
    (rsSampleAuto.allowMergeCommit = false → rsSampleAuto.allowRebaseMerge = false →
      rsSampleAuto.allowSquashMerge = false →
      performedMergeAction (some rsSampleAuto) ciSampleSuccess =
        some MergeAction.manualMerge) :=
  autoMerge_method_precedence rsSampleAuto ciSampleSuccess rfl

/-- Sample PR status record. -/
def prStatusSample : PRStatus :=
  { mergeable := some true, mergeableState := "clean", headSha := "abc123"
    baseRef := "main", headRef := "feature" }

/-- Sample per-PR oracle: already approved, all collaborator calls succeed,
no check-runs. -/
def envApproveOnly : PREnv :=
  { existing := Except.ok true, approve := Except.ok ()
    checkRuns := Except.ok [], prStatusR := Except.ok prStatusSample
    mergeExec := Except.ok () }

/-- Witness for C8 at a one-element batch. -/
theorem batch_error_isolation_witness :
    (∀ e ∈ (processPR false none "7" envApproveOnly).2,
      e ∈ (processBatch false none [("7", envApproveOnly)]).2) ∧
    ((∃ r ∈ (processBatch false none [("7", envApproveOnly)]).1, r.prNumber = "7") ∨
     (∃ e ∈ (processBatch false none [("7", envApproveOnly)]).2, e.prNumber = "7")) :=
  batch_error_isolation false none [("7", envApproveOnly)] "7" envApproveOnly
    (List.mem_singleton_self _)

end MergeGate

namespace CursorMerge

open MergeGate (strIncludes)

/-- Sample PR stats for an open, unmerged PR. -/
def prStatsOpen : PRStats :=
  { state := "open", merged := false, mergeable := some true
    mergeableState := "clean", headSha := "abc123", baseRef := "main"
    headRef := "feature", title := "sample", url := "https://example.test/pr/42" }

/-- Sample PR stats for an already-merged PR. -/
def prStatsMerged : PRStats :=
  { state := "closed", merged := true, mergeable := none
    mergeableState := "unknown", headSha := "abc123", baseRef := "main"
    headRef := "feature", title := "sample", url := "https://example.test/pr/42" }

/-- Sample spawn outcome of a conflicting branch update. -/
def spawnConflict : SpawnOutcome :=
  { exitCode := 1, stderr := "merge conflict between base and head" }

/-- Sample handler environment whose rebase attempt hits a conflict. -/
def envRebaseConflict : CursorEnv :=
  { prUrlPresent := true, ghAvailable := true, ghAuthenticated := true
    ghError := "", prNumber := "42"
    prStatsR := Except.ok prStatsOpen
    repoSettingsR := Except.ok { allowAutoMerge := false, linearHistory := false }
    rebaseSpawn := Except.ok spawnConflict
    mergeRun := Except.ok "" }

/-- Sample handler environment for an already-merged PR. -/
def envMergedPR : CursorEnv :=
  { prUrlPresent := true, ghAvailable := true, ghAuthenticated := true
    ghError := "", prNumber := "42"
    prStatsR := Except.ok prStatsMerged
    repoSettingsR := Except.ok { allowAutoMerge := false, linearHistory := false }
    rebaseSpawn := Except.ok { exitCode := 0, stderr := "" }
    mergeRun := Except.ok "" }

/-- Witness for C6 at a conflicting rebase attempt. -/
theorem rebase_gates_merge_witness :
    (∀ b : Bool, CursorOp.mergePR b ∉ (cursorMergeHandler envRebaseConflict).2) ∧
    (strIncludes spawnConflict.stderr "conflict" = true →
      (cursorMergeHandler envRebaseConflict).1 =
        HandlerOutcome.returns false (conflictRecommendation prStatsOpen)) ∧
    (strIncludes spawnConflict.stderr "conflict" = false →
      (cursorMergeHandler envRebaseConflict).1 =
        HandlerOutcome.throws ("Rebase failed: " ++ spawnConflict.stderr)) ∧
    (∀ (env' : CursorEnv) (b : Bool),
      CursorOp.mergePR b ∈ (cursorMergeHandler env').2 →
      ∃ o, env'.rebaseSpawn = Except.ok o ∧ o.exitCode = 0) :=
  rebase_gates_merge envRebaseConflict prStatsOpen
    { allowAutoMerge := false, linearHistory := false } spawnConflict
    rfl rfl rfl rfl rfl rfl rfl rfl (by decide)

/-- Witness for C10 at an already-merged PR. -/
theorem closed_pr_no_mutation_witness :
    (cursorMergeHandler envMergedPR).2 =
      [CursorOp.getAgentStatus, CursorOp.checkGHCLI, CursorOp.collectPRStats] ∧
    CursorOp.checkRepositorySettings ∉ (cursorMergeHandler envMergedPR).2 ∧
    CursorOp.attemptRebase ∉ (cursorMergeHandler envMergedPR).2 ∧
    (∀ b : Bool, CursorOp.mergePR b ∉ (cursorMergeHandler envMergedPR).2) ∧
    (prStatsMerged.merged = true →
      (cursorMergeHandler envMergedPR).1 =
        HandlerOutcome.returns false "This PR has already been merged.") ∧
    (prStatsMerged.merged = false → prStatsMerged.state ≠ "open" →
      (cursorMergeHandler envMergedPR).1 =
        HandlerOutcome.returns false "This PR has been canceled.") :=
  closed_pr_no_mutation envMergedPR prStatsMerged rfl rfl rfl rfl (Or.inl rfl)

end CursorMerge
